import Mathlib

/-!
Shallow embedding of the menu interaction state machine of `egui-desktop`
(`src/menu/api.rs`).  Callbacks are modelled by numeric identifiers; a
function that may invoke callbacks returns the list of identifiers of the
callbacks it invoked, in invocation order.  `f32` screen coordinates are
modelled by `ℚ` (the claims only use points strictly inside or outside the
relevant rectangles, so exact-versus-float rounding is immaterial).
Rust `usize` subtraction `n - 1` on a possibly-zero value is modelled by
wrapping arithmetic modulo `2 ^ 64` (release-build semantics).
The write-only field `last_keyboard_nav_time` is omitted: no modelled code
path reads it.
-/

namespace EguiDesktop

/-- Rust `usize` modulus. -/
def USIZE : Nat := 18446744073709551616

/-- Wrapping `n - 1` on `usize` (models `total_menus - 1` etc. in release mode). -/
def usizeSub1 (n : Nat) : Nat := (n + (USIZE - 1)) % USIZE

/-- `SubMenuItem` from `src/menu/items.rs` as used by `src/menu/api.rs`:
label, enabled flag, optional shortcut (modelled by an identifier),
optional callback (modelled by an identifier), separator flag and the
recursive list of children. -/
structure SubMenuItem where
  label : String
  enabled : Bool
  shortcut : Option Nat
  callback : Option Nat
  separator_after : Bool
  children : List SubMenuItem

/-- `MenuItem` (a submenu-bearing top-level entry): label, subitems, enabled flag. -/
structure MenuItem where
  label : String
  subitems : List SubMenuItem
  enabled : Bool

/-- The menu-relevant state of `TitleBar`.  `submenu_selections` and
`child_submenu_selections` are `HashMap<usize, usize>` modelled as
association lists. -/
structure TitleBar where
  menu_items : List (String × Option Nat)
  menu_items_with_submenus : List MenuItem
  keyboard_navigation_active : Bool
  selected_menu_index : Option Nat
  selected_submenu_index : Option Nat
  open_submenu : Option Nat
  submenu_selections : List (Nat × Nat)
  child_submenu_selections : List (Nat × Nat)
  force_open_child_subitem : Option Nat
  submenu_just_opened_frame : Bool
  last_click_id : Nat
  menu_positions : List ℚ
  menu_text_size : ℚ

/-- `HashMap::get`. -/
def mapGet (m : List (Nat × Nat)) (k : Nat) : Option Nat :=
  (m.find? (fun p => p.1 == k)).map (·.2)

/-- `HashMap::contains_key`. -/
def mapContains (m : List (Nat × Nat)) (k : Nat) : Bool :=
  (m.find? (fun p => p.1 == k)).isSome

/-- `HashMap::insert`. -/
def mapInsert (m : List (Nat × Nat)) (k v : Nat) : List (Nat × Nat) :=
  (k, v) :: m.filter (fun p => p.1 != k)

/-- `HashMap::remove`. -/
def mapRemove (m : List (Nat × Nat)) (k : Nat) : List (Nat × Nat) :=
  m.filter (fun p => p.1 != k)

/-- The per-frame input the menu logic reads from the egui `Context`:
key-press events, pointer state, the content-rect width, and the set of
keyboard shortcuts whose combination was just pressed (by identifier). -/
structure Input where
  alt : Bool
  ctrl : Bool
  f2 : Bool
  escape : Bool
  arrow_left : Bool
  arrow_right : Bool
  arrow_up : Bool
  arrow_down : Bool
  enter : Bool
  space : Bool
  primary_clicked : Bool
  interact_pos : Option (ℚ × ℚ)
  content_width : ℚ
  pressedShortcuts : List Nat

/-- `egui::Rect::contains` for the rect with the given min corner and size
(inclusive on all edges, as in egui). -/
def rectContains (minx miny w h : ℚ) (p : ℚ × ℚ) : Bool :=
  decide (minx ≤ p.1) && decide (p.1 ≤ minx + w) &&
  decide (miny ≤ p.2) && decide (p.2 ≤ miny + h)

/-- The menu-bar rect `Rect::from_min_size((0,0), (content_width, 32))`. -/
def menuBarContains (contentWidth : ℚ) (p : ℚ × ℚ) : Bool :=
  rectContains 0 0 contentWidth 32 p

/-- `check_keyboard_shortcuts`, inner loop body: fires a subitem's callback
when its shortcut was just pressed and the item is enabled
(api.rs lines 71-79). -/
def subitemShortcutFires (pressed : List Nat) (s : SubMenuItem) : List Nat :=
  match s.shortcut with
  | some k => if pressed.contains k && s.enabled then s.callback.toList else []
  | none => []

/-- `check_keyboard_shortcuts`, loop over one menu's direct subitems. -/
def menuShortcutFires (pressed : List Nat) : List SubMenuItem → List Nat
  | [] => []
  | s :: rest => subitemShortcutFires pressed s ++ menuShortcutFires pressed rest

/-- `check_keyboard_shortcuts`, outer loop over `menu_items_with_submenus`. -/
def menusShortcutFires (pressed : List Nat) : List MenuItem → List Nat
  | [] => []
  | mi :: rest => menuShortcutFires pressed mi.subitems ++ menusShortcutFires pressed rest

/-- `TitleBar::check_keyboard_shortcuts` (api.rs lines 68-81): iterates over
the *direct* subitems of every submenu-bearing top-level entry and fires the
callback of each enabled subitem whose shortcut was just pressed.  Returns
the fired callback identifiers. -/
def check_keyboard_shortcuts (tb : TitleBar) (pressed : List Nat) : List Nat :=
  menusShortcutFires pressed tb.menu_items_with_submenus

/-- Activation block of `handle_keyboard_navigation` (api.rs lines 92-103):
Alt or Ctrl+F2 while inactive activates keyboard navigation at index 0. -/
def activateBlock (tb : TitleBar) (inp : Input) : TitleBar :=
  if (inp.alt || (inp.ctrl && inp.f2)) && !tb.keyboard_navigation_active then
    { tb with keyboard_navigation_active := true, selected_menu_index := some 0,
              selected_submenu_index := none }
  else tb

/-- Outside-click block of `handle_keyboard_navigation` (api.rs lines 116-131):
a primary click outside the menu-bar rect while a submenu is open closes all
submenu levels but keeps keyboard navigation active. -/
def clickCloseBlock (tb : TitleBar) (inp : Input) : TitleBar :=
  if inp.primary_clicked then
    let pos := inp.interact_pos.getD ((0 : ℚ), (0 : ℚ))
    if !(menuBarContains inp.content_width pos) && tb.open_submenu.isSome then
      { tb with open_submenu := none, force_open_child_subitem := none,
                child_submenu_selections := [] }
    else tb
  else tb

/-- `current_highlighted_has_sidemenu` (api.rs lines 135-153). -/
def currentHighlightedHasSidemenu (tb : TitleBar) : Bool :=
  match tb.open_submenu with
  | some osi =>
    match tb.menu_items_with_submenus[osi]? with
    | some menu_item =>
      match mapGet tb.submenu_selections osi with
      | some sel =>
        match menu_item.subitems[sel]? with
        | some item => !item.children.isEmpty
        | none => false
      | none => false
    | none => false
  | none => false

/-- ArrowLeft at top level (api.rs lines 156-164). -/
def lrLeft (tb : TitleBar) : TitleBar :=
  match tb.selected_menu_index with
  | some i =>
    if 0 < i then
      { tb with selected_menu_index := some (i - 1), open_submenu := none,
                selected_submenu_index := none }
    else tb
  | none => tb

/-- ArrowRight at top level (api.rs lines 166-175); the bound uses the
wrapping `usize` subtraction `total_menus - 1`. -/
def lrRight (tb : TitleBar) : TitleBar :=
  let total := tb.menu_items.length + tb.menu_items_with_submenus.length
  match tb.selected_menu_index with
  | some i =>
    if i < usizeSub1 total then
      { tb with selected_menu_index := some (i + 1), open_submenu := none,
                selected_submenu_index := none }
    else tb
  | none => tb

/-- Top-level ArrowLeft/ArrowRight handling (api.rs lines 133-176), gated on
the currently highlighted submenu item not having a side menu. -/
def handleTopLR (tb : TitleBar) (inp : Input) : TitleBar :=
  if currentHighlightedHasSidemenu tb then tb
  else
    let tb := if inp.arrow_left then lrLeft tb else tb
    if inp.arrow_right then lrRight tb else tb

/-- Enter/Space priority 1 (api.rs lines 183-211): activate the highlighted
item of an open child side menu.  `some` means the Rust code executed the
enabled branch and returned early. -/
def enterPriority1 (tb : TitleBar) : Option (TitleBar × List Nat) :=
  match tb.open_submenu with
  | none => none
  | some osi =>
    match mapGet tb.child_submenu_selections osi with
    | none => none
    | some csi =>
      match tb.menu_items_with_submenus[osi]? with
      | none => none
      | some menu_item =>
        match tb.force_open_child_subitem with
        | none => none
        | some ci =>
          match menu_item.subitems[ci]? with
          | none => none
          | some child_item =>
            match child_item.children[csi]? with
            | none => none
            | some child_subitem =>
              if child_subitem.enabled then
                some ({ tb with open_submenu := none, selected_submenu_index := none,
                                force_open_child_subitem := none,
                                child_submenu_selections := [] },
                      child_subitem.callback.toList)
              else none

/-- Enter/Space priority 2 (api.rs lines 213-238): the one-frame guard, then
activation of the highlighted enabled leaf of the open submenu.  `some`
means the Rust code returned early. -/
def enterPriority2 (tb : TitleBar) : Option (TitleBar × List Nat) :=
  match tb.open_submenu with
  | none => none
  | some osi =>
    if tb.submenu_just_opened_frame then
      some ({ tb with submenu_just_opened_frame := false }, [])
    else
      match mapGet tb.submenu_selections osi with
      | none => none
      | some si =>
        match tb.menu_items_with_submenus[osi]? with
        | none => none
        | some menu_item =>
          match menu_item.subitems[si]? with
          | none => none
          | some subitem =>
            if subitem.enabled && subitem.children.isEmpty then
              some ({ tb with open_submenu := none,
                              submenu_selections := mapRemove tb.submenu_selections osi },
                    subitem.callback.toList)
            else none

/-- Enter/Space priority 3 (api.rs lines 240-278): activate a simple menu
item, or open the selected submenu-bearing top-level entry (selecting index
0, setting the one-frame guard, and force-opening the first subitem's child
list when keyboard navigation is active and that subitem has children). -/
def enterPriority3 (tb : TitleBar) : TitleBar × List Nat :=
  match tb.selected_menu_index with
  | none => (tb, [])
  | some menu_index =>
    let tsm := tb.menu_items.length
    if menu_index < tsm then
      match tb.menu_items[menu_index]? with
      | none => (tb, [])
      | some p => (tb, p.2.toList)
    else
      let si := menu_index - tsm
      match tb.menu_items_with_submenus[si]? with
      | none => (tb, [])
      | some menu_item =>
        if !menu_item.subitems.isEmpty then
          let force :=
            if tb.keyboard_navigation_active then
              match menu_item.subitems[0]? with
              | some first => if !first.children.isEmpty then some 0 else none
              | none => none
            else none
          ({ tb with open_submenu := some si,
                     submenu_selections := mapInsert tb.submenu_selections si 0,
                     submenu_just_opened_frame := true,
                     force_open_child_subitem := force }, [])
        else (tb, [])

/-- Enter/Space handling (api.rs lines 178-279).  The `Bool` component
records whether the Rust code returned early (skipping the submenu
navigation block and the end-of-function guard reset). -/
def handleEnter (tb : TitleBar) (inp : Input) : TitleBar × List Nat × Bool :=
  if inp.enter || inp.space then
    match enterPriority1 tb with
    | some (tb2, fired) => (tb2, fired, true)
    | none =>
      match enterPriority2 tb with
      | some (tb2, fired) => (tb2, fired, true)
      | none =>
        let r := enterPriority3 tb
        (r.1, r.2, false)
  else (tb, [], false)

/-- Up/down navigation in the open submenu (api.rs lines 284-312), active
only while no child side menu is involved. -/
def navUpDown (menu_item : MenuItem) (osi : Nat) (inp : Input) (tb : TitleBar) : TitleBar :=
  if tb.force_open_child_subitem.isNone &&
      !(mapContains tb.child_submenu_selections osi) then
    let tb :=
      if inp.arrow_up then
        match mapGet tb.submenu_selections osi with
        | some c =>
          if 0 < c then
            { tb with submenu_selections := mapInsert tb.submenu_selections osi (c - 1) }
          else tb
        | none => tb
      else tb
    if inp.arrow_down then
      match mapGet tb.submenu_selections osi with
      | some c =>
        if c < usizeSub1 menu_item.subitems.length then
          { tb with submenu_selections := mapInsert tb.submenu_selections osi (c + 1) }
        else tb
      | none => tb
    else tb
  else tb

/-- ArrowRight force-open of a highlighted item's child list
(api.rs lines 314-330). -/
def navRight (menu_item : MenuItem) (osi : Nat) (inp : Input) (tb : TitleBar) : TitleBar :=
  if inp.arrow_right then
    match mapGet tb.submenu_selections osi with
    | some c =>
      match menu_item.subitems[c]? with
      | some item =>
        if !item.children.isEmpty then
          { tb with force_open_child_subitem := some c,
                    submenu_just_opened_frame := true }
        else tb
      | none => tb
    | none => tb
  else tb

/-- ArrowLeft back-out (api.rs lines 332-349). -/
def navLeft (osi : Nat) (inp : Input) (tb : TitleBar) : TitleBar :=
  if inp.arrow_left then
    if tb.force_open_child_subitem.isSome then
      { tb with force_open_child_subitem := none,
                child_submenu_selections := mapRemove tb.child_submenu_selections osi }
    else if tb.keyboard_navigation_active &&
        mapContains tb.child_submenu_selections osi then
      { tb with child_submenu_selections := mapRemove tb.child_submenu_selections osi }
    else
      { tb with open_submenu := none,
                submenu_selections := mapRemove tb.submenu_selections osi }
  else tb

/-- Child side-menu navigation (api.rs lines 351-410): determine the active
child index (forced, or hover-derived in mouse mode), initialise the child
selection, and handle up/down inside the child list. -/
def navChild (menu_item : MenuItem) (osi : Nat) (inp : Input) (tb : TitleBar) : TitleBar :=
  let aci :=
    if tb.force_open_child_subitem.isNone && !tb.keyboard_navigation_active then
      match mapGet tb.submenu_selections osi with
      | some s =>
        match menu_item.subitems[s]? with
        | some it => if !it.children.isEmpty then some s else none
        | none => none
      | none => none
    else tb.force_open_child_subitem
  match aci with
  | none => tb
  | some ci =>
    match menu_item.subitems[ci]? with
    | none => tb
    | some child_item =>
      if !child_item.children.isEmpty then
        let tb :=
          if !(mapContains tb.child_submenu_selections osi) then
            { tb with child_submenu_selections :=
                mapInsert tb.child_submenu_selections osi 0 }
          else tb
        let tb :=
          if inp.arrow_up then
            match mapGet tb.child_submenu_selections osi with
            | some c =>
              if 0 < c then
                { tb with child_submenu_selections :=
                    mapInsert tb.child_submenu_selections osi (c - 1) }
              else tb
            | none => tb
          else tb
        if inp.arrow_down then
          match mapGet tb.child_submenu_selections osi with
          | some c =>
            if c < usizeSub1 child_item.children.length then
              { tb with child_submenu_selections :=
                  mapInsert tb.child_submenu_selections osi (c + 1) }
            else tb
          | none => tb
        else tb
      else tb

/-- Submenu navigation block (api.rs lines 281-411): up/down in the open
submenu (only while no child side menu is involved), ArrowRight force-open
of a highlighted item's child list, ArrowLeft back-out, and up/down inside
an open child side menu — executed in that order, as in the source. -/
def handleSubmenuNav (tb : TitleBar) (inp : Input) : TitleBar :=
  match tb.open_submenu with
  | none => tb
  | some osi =>
    match tb.menu_items_with_submenus[osi]? with
    | none => tb
    | some menu_item =>
      navChild menu_item osi inp
        (navLeft osi inp (navRight menu_item osi inp (navUpDown menu_item osi inp tb)))

/-- `TitleBar::handle_keyboard_navigation` (api.rs lines 89-418).  Returns
the new state and the identifiers of the callbacks invoked during the call,
in invocation order. -/
def handle_keyboard_navigation (tb : TitleBar) (inp : Input) : TitleBar × List Nat :=
  let tb := activateBlock tb inp
  if !tb.keyboard_navigation_active then (tb, [])
  else if inp.escape then
    ({ tb with keyboard_navigation_active := false, selected_menu_index := none,
               selected_submenu_index := none, open_submenu := none }, [])
  else
    let tb := clickCloseBlock tb inp
    let tb := handleTopLR tb inp
    let r := handleEnter tb inp
    if r.2.2 then (r.1, r.2.1)
    else
      let tb3 := handleSubmenuNav r.1 inp
      ({ tb3 with submenu_just_opened_frame := false }, r.2.1)

/-- Click on the `index`-th submenu-bearing top-level trigger
(api.rs lines 592-604).  The state is paired with the global
`SUBMENU_CLICK_COUNTER`; `fetch_add` stores the *previous* counter value in
`last_click_id` and leaves the counter incremented. -/
def clickSubmenuTrigger (tb : TitleBar) (counter : Nat) (index : Nat) : TitleBar × Nat :=
  if tb.open_submenu == some index then
    ({ tb with open_submenu := none, submenu_just_opened_frame := false }, counter)
  else
    ({ tb with open_submenu := some index, submenu_just_opened_frame := true,
               last_click_id := counter }, counter + 1)

/-- Fallback submenu x position (api.rs lines 705-712), using the
character-count approximation `label.len() * (menu_text_size * 0.6) + 16`. -/
def fallbackX (tb : TitleBar) (open_index : Nat) : ℚ :=
  16 + 20 + 8 +
    ((tb.menu_items_with_submenus.take open_index).map
      (fun it => (it.label.length : ℚ) * (tb.menu_text_size * (6 / 10)) + 16)).sum

/-- Submenu x position (api.rs lines 699-713): the recorded menu position
when available, else the fallback approximation. -/
def submenuX (tb : TitleBar) (open_index : Nat) : ℚ :=
  (tb.menu_positions[tb.menu_items.length + open_index]?).getD (fallbackX tb open_index)

/-- The state-updating part of `TitleBar::render_open_submenu`
(api.rs lines 681-787): closing when an item inside the overlay was clicked
(`item_clicked`, reported by the recursive renderer), then the outside-click
check guarded by `current_click_id > last_click_id` against the fixed
200×100 hit-test rect at the submenu position, then the one-frame guard
reset.  `counter` is the current value of `SUBMENU_CLICK_COUNTER`. -/
def render_open_submenu_step (tb : TitleBar) (counter : Nat) (inp : Input)
    (item_clicked : Bool) : TitleBar :=
  match tb.open_submenu with
  | none => tb
  | some open_index =>
    match tb.menu_items_with_submenus[open_index]? with
    | none => tb
    | some menu_item =>
      if menu_item.subitems.isEmpty then tb
      else
        let sx := submenuX tb open_index
        let tb :=
          if item_clicked then
            { tb with open_submenu := none, submenu_just_opened_frame := false }
          else tb
        let tb :=
          if inp.primary_clicked then
            let pos := inp.interact_pos.getD ((0 : ℚ), (0 : ℚ))
            if counter > tb.last_click_id then
              if !(rectContains sx 32 200 100 pos) &&
                  !(menuBarContains inp.content_width pos) then
                { tb with open_submenu := none, force_open_child_subitem := none,
                          child_submenu_selections := [] }
              else tb
            else tb
          else tb
        { tb with submenu_just_opened_frame := false }

/-- Per-row click handling inside `render_submenu_overlay_static`
(api.rs lines 1033-1038): an enabled leaf (no children) that is clicked
fires its callback (when present) and reports `item_clicked = true`;
callbacks of disabled rows and of rows with children never fire here. -/
def subitemClick (s : SubMenuItem) (clicked : Bool) : List Nat × Bool :=
  if clicked && s.enabled && s.children.isEmpty then (s.callback.toList, true)
  else ([], false)

/-- An axis-aligned rectangle with rational coordinates. -/
structure Rectq where
  minx : ℚ
  miny : ℚ
  maxx : ℚ
  maxy : ℚ

/-- `egui::Rect::contains` (inclusive on all edges). -/
def rectqContains (r : Rectq) (p : ℚ × ℚ) : Bool :=
  decide (r.minx ≤ p.1) && decide (p.1 ≤ r.maxx) &&
  decide (r.miny ≤ p.2) && decide (p.2 ≤ r.maxy)

/-- The hover corridor bridging a parent row and its child panel
(api.rs lines 972-976): 10 wide, padded 6 above and below the row. -/
def corridorRect (item_rect : Rectq) : Rectq :=
  { minx := item_rect.maxx, miny := item_rect.miny - 6,
    maxx := item_rect.maxx + 10, maxy := item_rect.maxy + 6 }

/-- The hover-driven `open_child` decision inside
`render_submenu_overlay_static` (api.rs lines 966-1032): only an *enabled*
row with children is kept open, when directly hovered, or when the pointer
lies in the corridor or in the (externally measured) child panel rect. -/
def openChildDecision (s : SubMenuItem) (hovered : Bool) (ptr : Option (ℚ × ℚ))
    (item_rect child_rect : Rectq) : Bool :=
  if s.enabled && !s.children.isEmpty then
    if hovered then true
    else
      match ptr with
      | some p => rectqContains (corridorRect item_rect) p || rectqContains child_rect p
      | none => false
  else false

/-- The condition under which the cascading child menu of row `i` is
rendered open (api.rs line 1042): hover-driven, or force-opened by keyboard
navigation. -/
def childRenderedOpen (open_child : Bool) (keyboard_navigation_active : Bool)
    (force_open_child_subitem : Option Nat) (i : Nat) : Bool :=
  open_child || (keyboard_navigation_active && force_open_child_subitem == some i)

/-- The callback-firing sequence of one `render_menu_items` frame
(api.rs lines 428-431): shortcut dispatch, then keyboard navigation. -/
def render_frame_fired (tb : TitleBar) (inp : Input) : List Nat :=
  check_keyboard_shortcuts tb inp.pressedShortcuts ++
    (handle_keyboard_navigation tb inp).2

/-! ### Specification predicates -/

/-- `s` occurs in `l` as a direct element or as a child of a direct element
(the only depths at which the modelled code can fire a subitem callback). -/
def OccursShallow (s : SubMenuItem) (l : List SubMenuItem) : Prop :=
  s ∈ l ∨ ∃ t ∈ l, s ∈ t.children

/-- Callback identifier `c` belongs to a simple menu item, or to an
*enabled* subitem of some submenu-bearing entry.  Every callback the menu
logic fires is of this form, which is how "a disabled item's callback is
never invoked" is expressed without assuming identifiers are distinct. -/
def LegitFire (simple : List (String × Option Nat)) (menus : List MenuItem)
    (c : Nat) : Prop :=
  (∃ p ∈ simple, p.2 = some c) ∨
  ∃ mi ∈ menus, ∃ s, OccursShallow s mi.subitems ∧ s.enabled = true ∧
    s.callback = some c

/-- The selected top-level index, when present, is a valid index into the
combined list of top-level entries. -/
def selectedInRange (tb : TitleBar) : Prop :=
  ∀ i, tb.selected_menu_index = some i →
    i < tb.menu_items.length + tb.menu_items_with_submenus.length

/-! ### Canonical inputs -/

/-- A frame with no key presses, no click, no pressed shortcut. -/
def noKeys : Input :=
  { alt := false, ctrl := false, f2 := false, escape := false,
    arrow_left := false, arrow_right := false, arrow_up := false,
    arrow_down := false, enter := false, space := false,
    primary_clicked := false, interact_pos := none, content_width := 800,
    pressedShortcuts := [] }

/-- A frame in which only Enter was pressed. -/
def enterInput : Input := { noKeys with enter := true }

/-- A frame in which only ArrowRight was pressed. -/
def rightInput : Input := { noKeys with arrow_right := true }

/-- A frame in which only ArrowLeft was pressed. -/
def leftInput : Input := { noKeys with arrow_left := true }

/-- A frame in which only Alt was pressed. -/
def altInput : Input := { noKeys with alt := true }

/-- A frame in which only Escape was pressed. -/
def escInput : Input := { noKeys with escape := true }

/-- A frame with only a primary click at `p`, content width `w`. -/
def clickInput (p : ℚ × ℚ) (w : ℚ) : Input :=
  { noKeys with primary_clicked := true, interact_pos := some p,
                content_width := w }

/-- A frame in which only the shortcuts in `l` were just pressed. -/
def shortcutInput (l : List Nat) : Input :=
  { noKeys with pressedShortcuts := l }

/-- One keyboard-navigation step under an ArrowRight-only frame. -/
def stepRight (tb : TitleBar) : TitleBar :=
  (handle_keyboard_navigation tb rightInput).1

/-! ### Concrete fixtures (the spec §8 example tree and variants) -/

/-- Leaf subitem with callback 8. -/
def leafA : SubMenuItem := ⟨"A.txt", true, none, some 8, false, []⟩

/-- Leaf subitem with callback 9. -/
def leafB : SubMenuItem := ⟨"B.txt", true, none, some 9, false, []⟩

/-- Enabled leaf with shortcut 5 and callback 7. -/
def itemNew : SubMenuItem := ⟨"New", true, some 5, some 7, false, []⟩

/-- Subitem with two children (a submenu trigger, not a leaf). -/
def itemRecent : SubMenuItem := ⟨"Recent", true, none, none, false, [leafA, leafB]⟩

/-- Disabled leaf with callback 10. -/
def itemExit : SubMenuItem := ⟨"Exit", false, none, some 10, false, []⟩

/-- The spec §8 example menu. -/
def fileMenu : MenuItem := ⟨"File", [itemNew, itemRecent, itemExit], true⟩

/-- A `TitleBar` holding the `fileMenu` tree, at rest. -/
def baseTB : TitleBar :=
  { menu_items := [], menu_items_with_submenus := [fileMenu],
    keyboard_navigation_active := false, selected_menu_index := none,
    selected_submenu_index := none, open_submenu := none,
    submenu_selections := [], child_submenu_selections := [],
    force_open_child_subitem := none, submenu_just_opened_frame := false,
    last_click_id := 0, menu_positions := [0], menu_text_size := 14 }

/-- Keyboard navigation active, submenu 0 open, the subitem with children
(`itemRecent`, index 1) highlighted. -/
def nestedHighlightTB : TitleBar :=
  { baseTB with
    keyboard_navigation_active := true
    selected_menu_index := some 0
    open_submenu := some 0
    submenu_selections := [(0, 1)] }

/-- Keyboard navigation active with residual side-menu state: submenu 0
open, child side menu of subitem 1 force-open with its second entry
selected. -/
def residualTB : TitleBar :=
  { baseTB with
    keyboard_navigation_active := true
    selected_menu_index := some 0
    open_submenu := some 0
    submenu_selections := [(0, 1)]
    child_submenu_selections := [(0, 1)]
    force_open_child_subitem := some 1 }

/-- An enabled depth-2 leaf with shortcut 5 and callback 7. -/
def deepLeaf : SubMenuItem := ⟨"Deep", true, some 5, some 7, false, []⟩

/-- The depth-1 parent of `deepLeaf` (no shortcut of its own). -/
def deepParent : SubMenuItem := ⟨"Recent", true, none, none, false, [deepLeaf]⟩

/-- A menu whose only shortcut-bearing item sits at depth 2. -/
def deepMenu : MenuItem := ⟨"File", [deepParent], true⟩

/-- Title bar for the depth-2 shortcut scenario. -/
def deepTB : TitleBar := { baseTB with menu_items_with_submenus := [deepMenu] }

/-- Two enabled leaves sharing shortcut 3, with callbacks 1 and 2. -/
def twoShortcutMenu : MenuItem :=
  ⟨"M", [⟨"x", true, some 3, some 1, false, []⟩,
         ⟨"y", true, some 3, some 2, false, []⟩], true⟩

/-- Title bar for the duplicated-shortcut scenario. -/
def twoShortcutTB : TitleBar := { baseTB with menu_items_with_submenus := [twoShortcutMenu] }

/-- A disabled subitem that has children. -/
def disabledParent : SubMenuItem := ⟨"Dis", false, none, some 11, false, [leafA]⟩

/-- Keyboard navigation active with the disabled `disabledParent`
highlighted inside its open submenu. -/
def disabledParentTB : TitleBar :=
  { baseTB with
    menu_items_with_submenus := [⟨"M", [disabledParent], true⟩]
    keyboard_navigation_active := true
    selected_menu_index := some 0
    open_submenu := some 0
    submenu_selections := [(0, 0)] }

/-- An enabled leaf with no callback. -/
def noCallbackLeaf : SubMenuItem := ⟨"N", true, none, none, false, []⟩

/-- Keyboard navigation active with `noCallbackLeaf` highlighted inside its
open submenu. -/
def noCallbackTB : TitleBar :=
  { baseTB with
    menu_items_with_submenus := [⟨"M", [noCallbackLeaf], true⟩]
    keyboard_navigation_active := true
    selected_menu_index := some 0
    open_submenu := some 0
    submenu_selections := [(0, 0)] }

/-- A title bar with zero top-level entries of either kind. -/
def emptyTB : TitleBar :=
  { baseTB with menu_items_with_submenus := [] }

/-- Two top-level entries (one simple, one with submenu), keyboard
navigation active at index 0. -/
def twoEntryTB : TitleBar :=
  { baseTB with
    menu_items := [("Help", some 20)]
    keyboard_navigation_active := true
    selected_menu_index := some 0 }

/-! ### Counterexamples to claims the code does not satisfy -/

/-- C2 counterexample: `deepLeaf` is an enabled leaf at depth 2 (a child of
a child) carrying shortcut 5 and callback 7, yet a frame in which shortcut
5 was just pressed fires nothing: `check_keyboard_shortcuts` iterates only
over the direct subitems of each top-level entry and never descends into
`children`, so the claim "any depth ... including children of children"
fails. -/
theorem c2_deep_shortcut_counterexample :
    deepLeaf.enabled = true ∧ deepLeaf.shortcut = some 5 ∧
    deepLeaf.children = [] ∧ deepLeaf.callback = some 7 ∧
    deepTB.menu_items_with_submenus = [deepMenu] ∧
    deepMenu.subitems = [deepParent] ∧ deepParent.children = [deepLeaf] ∧
    render_frame_fired deepTB (shortcutInput [5]) = [] :=
  ⟨rfl, rfl, rfl, rfl, rfl, rfl, rfl, rfl⟩

/-- C3 counterexample: with submenu 0 open and the submenu-bearing subitem
`itemRecent` (index 1, children nonempty) highlighted, pressing Enter does
NOT open its child list: the Enter handler falls through to priority 3,
which re-opens the top-level submenu with the selection reset to index 0,
leaving no child list open and no child selection — contrary to the claim
that Enter on any highlighted submenu-bearing item opens *its* child list
with index 0 selected. -/
theorem c3_enter_on_nested_parent_counterexample :
    fileMenu.subitems[1]? = some itemRecent ∧
    itemRecent.children = [leafA, leafB] ∧
    nestedHighlightTB.open_submenu = some 0 ∧
    mapGet nestedHighlightTB.submenu_selections 0 = some 1 ∧
    (handle_keyboard_navigation nestedHighlightTB enterInput).2 = [] ∧
    mapGet (handle_keyboard_navigation nestedHighlightTB enterInput).1.submenu_selections 0
      = some 0 ∧
    (handle_keyboard_navigation nestedHighlightTB enterInput).1.force_open_child_subitem
      = none ∧
    mapGet (handle_keyboard_navigation nestedHighlightTB enterInput).1.child_submenu_selections 0
      = none :=
  ⟨rfl, rfl, rfl, rfl, rfl, rfl, rfl, rfl⟩

/-- C4 counterexample: `disabledParent` is disabled yet ArrowRight while it
is highlighted force-opens its child submenu (`force_open_child_subitem`
becomes `some 0`, a child selection is initialised, and the renderer's
line-1042 condition then shows the child panel): a disabled item accepts
keyboard-driven opening of its submenu, contrary to the claim. -/
theorem c4_disabled_keyboard_open_counterexample :
    disabledParent.enabled = false ∧
    disabledParent.children = [leafA] ∧
    (handle_keyboard_navigation disabledParentTB rightInput).1.force_open_child_subitem
      = some 0 ∧
    mapGet (handle_keyboard_navigation disabledParentTB rightInput).1.child_submenu_selections 0
      = some 0 ∧
    childRenderedOpen false
      (handle_keyboard_navigation disabledParentTB rightInput).1.keyboard_navigation_active
      (handle_keyboard_navigation disabledParentTB rightInput).1.force_open_child_subitem 0
      = true :=
  ⟨rfl, rfl, rfl, rfl, rfl⟩

/-- C5 counterexample: from a state with residual side-menu state, Escape
deactivates navigation and clears `open_submenu`, but leaves
`force_open_child_subitem`, `child_submenu_selections` and
`submenu_selections` untouched — so "all child-submenu selection state
reset to nothing open/selected" fails. -/
theorem c5_escape_residual_counterexample :
    (handle_keyboard_navigation residualTB escInput).1.keyboard_navigation_active = false ∧
    (handle_keyboard_navigation residualTB escInput).1.open_submenu = none ∧
    (handle_keyboard_navigation residualTB escInput).1.force_open_child_subitem = some 1 ∧
    (handle_keyboard_navigation residualTB escInput).1.child_submenu_selections = [(0, 1)] ∧
    (handle_keyboard_navigation residualTB escInput).1.submenu_selections = [(0, 1)] :=
  ⟨rfl, rfl, rfl, rfl, rfl⟩

/-- C6 counterexample: the point (50, 50) lies inside the open submenu's
200×100 hit-test rectangle (and below the 32-high menu bar), yet a primary
click there makes the keyboard-navigation outside-click path close the
submenu: the path tests only the menu-bar rectangle, so a click *inside*
an open submenu region does trigger it, contrary to the claim. -/
theorem c6_click_inside_submenu_counterexample :
    residualTB.open_submenu = some 0 ∧
    rectContains (submenuX residualTB 0) 32 200 100 (50, 50) = true ∧
    menuBarContains 800 (50, 50) = false ∧
    (handle_keyboard_navigation residualTB (clickInput (50, 50) 800)).1.open_submenu
      = none :=
  ⟨rfl, by with_unfolding_all rfl, by with_unfolding_all rfl, by with_unfolding_all rfl⟩

/-- C9 counterexample: two enabled subitems share shortcut 3; in the frame
where shortcut 3 was just pressed, `render_menu_items`'s dispatch sequence
invokes both callbacks (1 and 2) — two activation callbacks in one frame,
contrary to "at most one item callback per frame". -/
theorem c9_two_callbacks_counterexample :
    render_frame_fired twoShortcutTB (shortcutInput [3]) = [1, 2] ∧
    (render_frame_fired twoShortcutTB (shortcutInput [3])).length = 2 :=
  ⟨rfl, rfl⟩

/-- C10 counterexample: with zero top-level entries configured, pressing
Alt activates keyboard navigation with selected index `some 0` — not a
valid index into the empty entry list — and a following ArrowRight (whose
`total_menus - 1` underflows on `usize`) moves it to `some 1`. -/
theorem c10_zero_entries_counterexample :
    emptyTB.menu_items.length + emptyTB.menu_items_with_submenus.length = 0 ∧
    (handle_keyboard_navigation emptyTB altInput).1.selected_menu_index = some 0 ∧
    (handle_keyboard_navigation (handle_keyboard_navigation emptyTB altInput).1
      rightInput).1.selected_menu_index = some 1 :=
  ⟨rfl, rfl, rfl⟩

/-! ### Helper lemmas -/

/-- An `Option.toList` has at most one element. -/
theorem optToList_length_le_one (o : Option Nat) : o.toList.length ≤ 1 := by
  cases o <;> simp

/-- Looking up the key just inserted. -/
theorem mapGet_insert_self (m : List (Nat × Nat)) (k v : Nat) :
    mapGet (mapInsert m k v) k = some v := by
  simp [mapGet, mapInsert, List.find?]

/-- Membership from a successful indexed lookup. -/
theorem mem_of_idx_eq_some {α : Type} {l : List α} {n : Nat} {a : α}
    (h : l[n]? = some a) : a ∈ l := by
  induction l generalizing n with
  | nil => simp at h
  | cons x xs ih =>
    cases n with
    | zero => simp at h; simp [h]
    | succ n => simp at h; exact List.mem_cons_of_mem _ (ih h)

/-! ### Claim theorems -/

/-- C5 (amended): pressing Escape while keyboard navigation is active
deactivates it and clears `selected_menu_index`, `selected_submenu_index`
and `open_submenu`, firing no callback — but it leaves
`submenu_selections`, `child_submenu_selections` and
`force_open_child_subitem` untouched. -/
theorem c5_escape_deactivates (tb : TitleBar)
    (h : tb.keyboard_navigation_active = true) :
    (handle_keyboard_navigation tb escInput).1.keyboard_navigation_active = false ∧
    (handle_keyboard_navigation tb escInput).1.selected_menu_index = none ∧
    (handle_keyboard_navigation tb escInput).1.selected_submenu_index = none ∧
    (handle_keyboard_navigation tb escInput).1.open_submenu = none ∧
    (handle_keyboard_navigation tb escInput).1.submenu_selections = tb.submenu_selections ∧
    (handle_keyboard_navigation tb escInput).1.child_submenu_selections
      = tb.child_submenu_selections ∧
    (handle_keyboard_navigation tb escInput).1.force_open_child_subitem
      = tb.force_open_child_subitem ∧
    (handle_keyboard_navigation tb escInput).2 = [] := by
  simp [handle_keyboard_navigation, activateBlock, escInput, noKeys, h]

/-- C5 witness: the theorem applied to the residual-state fixture. -/
theorem c5_witness :
    (handle_keyboard_navigation residualTB escInput).1.keyboard_navigation_active = false ∧
    (handle_keyboard_navigation residualTB escInput).1.selected_menu_index = none ∧
    (handle_keyboard_navigation residualTB escInput).1.selected_submenu_index = none ∧
    (handle_keyboard_navigation residualTB escInput).1.open_submenu = none ∧
    (handle_keyboard_navigation residualTB escInput).1.submenu_selections
      = residualTB.submenu_selections ∧
    (handle_keyboard_navigation residualTB escInput).1.child_submenu_selections
      = residualTB.child_submenu_selections ∧
    (handle_keyboard_navigation residualTB escInput).1.force_open_child_subitem
      = residualTB.force_open_child_subitem ∧
    (handle_keyboard_navigation residualTB escInput).2 = [] :=
  c5_escape_deactivates residualTB rfl

/-- Fired-callback count of the Enter/Space priority-1 branch. -/
theorem enterPriority1_fired_le_one (tb tb2 : TitleBar) (fired : List Nat)
    (h : enterPriority1 tb = some (tb2, fired)) : fired.length ≤ 1 := by
  unfold enterPriority1 at h
  repeat' split at h
  all_goals first
    | exact Option.noConfusion h
    | (cases h; exact optToList_length_le_one _)

/-- Fired-callback count of the Enter/Space priority-2 branch. -/
theorem enterPriority2_fired_le_one (tb tb2 : TitleBar) (fired : List Nat)
    (h : enterPriority2 tb = some (tb2, fired)) : fired.length ≤ 1 := by
  unfold enterPriority2 at h
  repeat' split at h
  all_goals first
    | exact Option.noConfusion h
    | (cases h; simp)
    | (cases h; exact optToList_length_le_one _)

/-- Fired-callback count of the Enter/Space priority-3 branch. -/
theorem enterPriority3_fired_le_one (tb : TitleBar) :
    (enterPriority3 tb).2.length ≤ 1 := by
  unfold enterPriority3
  rcases hsel : tb.selected_menu_index with _ | m
  · simp
  · by_cases hm : m < tb.menu_items.length
    · simp only [if_pos hm]
      rcases hp : tb.menu_items[m]? with _ | p
      · simp [hp]
      · simp [hp]
        exact optToList_length_le_one _
    · simp only [if_neg hm]
      rcases hq : tb.menu_items_with_submenus[m - tb.menu_items.length]? with _ | mi
      · simp [hq]
      · by_cases hne : mi.subitems.isEmpty
        · simp [hq, hne]
        · simp [hq, hne]

/-- The whole Enter/Space handler fires at most one callback. -/
theorem handleEnter_fired_le_one (tb : TitleBar) (inp : Input) :
    (handleEnter tb inp).2.1.length ≤ 1 := by
  unfold handleEnter
  split
  · rcases h1 : enterPriority1 tb with _ | ⟨tb2, fired⟩
    · rcases h2 : enterPriority2 tb with _ | ⟨tb3, fired2⟩
      · simp [h1, h2]
        exact enterPriority3_fired_le_one tb
      · simp [h1, h2]
        exact enterPriority2_fired_le_one tb tb3 fired2 h2
    · simp [h1]
      exact enterPriority1_fired_le_one tb tb2 fired h1
  · simp

/-- C9 (amended): keyboard navigation invokes at most one callback per
frame; the shortcut dispatch pass, in contrast, can fire one callback per
matching enabled subitem (see the counterexample), so a whole frame can
fire several. -/
theorem c9_nav_single_activation (tb : TitleBar) (inp : Input) :
    ((handle_keyboard_navigation tb inp).2).length ≤ 1 := by
  simp only [handle_keyboard_navigation]
  split
  · simp
  · split
    · simp
    · split
      · exact handleEnter_fired_le_one _ _
      · exact handleEnter_fired_le_one _ _

/-- C7: activating an enabled leaf with no registered callback is a no-op
for side effects but still closes: (i) keyboard Enter on such a highlighted
leaf fires nothing and closes the open submenu; (ii) a click on such a row
fires nothing yet still reports `item_clicked`; (iii) an `item_clicked`
report makes `render_open_submenu` close the open submenu, whatever else
the frame's input is. -/
theorem c7_missing_callback_noop :
    (∀ (tb : TitleBar) (osi j : Nat) (mi : MenuItem) (s : SubMenuItem),
      tb.keyboard_navigation_active = true →
      tb.open_submenu = some osi →
      tb.submenu_just_opened_frame = false →
      mapGet tb.child_submenu_selections osi = none →
      mapGet tb.submenu_selections osi = some j →
      tb.menu_items_with_submenus[osi]? = some mi →
      mi.subitems[j]? = some s →
      s.enabled = true → s.children.isEmpty = true → s.callback = none →
      (handle_keyboard_navigation tb enterInput).2 = [] ∧
      (handle_keyboard_navigation tb enterInput).1.open_submenu = none) ∧
    (∀ s : SubMenuItem, s.enabled = true → s.children.isEmpty = true →
      s.callback = none → subitemClick s true = ([], true)) ∧
    (∀ (tb : TitleBar) (counter : Nat) (inp : Input) (k : Nat) (mi : MenuItem),
      tb.open_submenu = some k →
      tb.menu_items_with_submenus[k]? = some mi →
      mi.subitems.isEmpty = false →
      (render_open_submenu_step tb counter inp true).open_submenu = none) := by
  refine ⟨?_, ?_, ?_⟩
  · intro tb osi j mi s hact hopen hguard hchild hsel hmi hs hen hleaf hcb
    simp [handle_keyboard_navigation, activateBlock, clickCloseBlock, handleTopLR,
      currentHighlightedHasSidemenu, handleEnter, enterPriority1, enterPriority2,
      enterInput, noKeys, hact, hopen, hguard, hchild, hsel, hmi, hs, hen, hleaf, hcb]
  · intro s hen hleaf hcb
    simp [subitemClick, hen, hleaf, hcb]
  · intro tb counter inp k mi h1 h2 h3
    simp only [render_open_submenu_step, h1, h2, h3]
    repeat' split
    all_goals simp_all

/-- C7 witness: the theorem's three parts applied to the
`noCallbackLeaf` fixtures. -/
theorem c7_witness :
    ((handle_keyboard_navigation noCallbackTB enterInput).2 = [] ∧
      (handle_keyboard_navigation noCallbackTB enterInput).1.open_submenu = none) ∧
    subitemClick noCallbackLeaf true = ([], true) ∧
    (render_open_submenu_step residualTB 5 noKeys true).open_submenu = none :=
  ⟨c7_missing_callback_noop.1 noCallbackTB 0 0 ⟨"M", [noCallbackLeaf], true⟩
      noCallbackLeaf rfl rfl rfl rfl rfl rfl rfl rfl rfl rfl,
    c7_missing_callback_noop.2.1 noCallbackLeaf rfl rfl rfl,
    c7_missing_callback_noop.2.2 residualTB 5 noKeys 0 fileMenu rfl rfl rfl⟩

/-- C3 (amended): in keyboard mode, (i) Enter at depth 0 on a
submenu-bearing *top-level* entry opens its subitem list with index 0
selected and fires no callback; (ii) a later Enter with an enabled leaf
with callback `c` highlighted in the open submenu (and no child side-menu
state) fires exactly `[c]` and closes the submenu.  For a submenu *item*
with children highlighted inside an open submenu, Enter does not open that
item's child list (see the counterexample): it falls through to priority 3
and re-opens the top-level submenu at index 0. -/
theorem c3_enter_open_then_activate :
    (∀ (tb : TitleBar) (m : Nat) (mi : MenuItem),
      tb.keyboard_navigation_active = true →
      tb.open_submenu = none →
      tb.selected_menu_index = some m →
      tb.menu_items.length ≤ m →
      tb.menu_items_with_submenus[m - tb.menu_items.length]? = some mi →
      mi.subitems.isEmpty = false →
      (handle_keyboard_navigation tb enterInput).1.open_submenu
        = some (m - tb.menu_items.length) ∧
      mapGet (handle_keyboard_navigation tb enterInput).1.submenu_selections
        (m - tb.menu_items.length) = some 0 ∧
      (handle_keyboard_navigation tb enterInput).2 = []) ∧
    (∀ (tb : TitleBar) (osi j c : Nat) (mi : MenuItem) (s : SubMenuItem),
      tb.keyboard_navigation_active = true →
      tb.open_submenu = some osi →
      tb.submenu_just_opened_frame = false →
      mapGet tb.child_submenu_selections osi = none →
      mapGet tb.submenu_selections osi = some j →
      tb.menu_items_with_submenus[osi]? = some mi →
      mi.subitems[j]? = some s →
      s.enabled = true → s.children.isEmpty = true → s.callback = some c →
      (handle_keyboard_navigation tb enterInput).2 = [c] ∧
      (handle_keyboard_navigation tb enterInput).1.open_submenu = none) := by
  constructor
  · intro tb m mi hact hopen hsel hge hmi hne
    have hnm : ¬ (m < tb.menu_items.length) := Nat.not_lt.mpr hge
    rcases h0 : mi.subitems[0]? with _ | first
    · simp [handle_keyboard_navigation, activateBlock, clickCloseBlock, handleTopLR,
        currentHighlightedHasSidemenu, handleEnter, enterPriority1, enterPriority2,
        enterPriority3, handleSubmenuNav, navUpDown, navRight, navLeft, navChild,
        enterInput, noKeys, hact, hopen, hsel, hnm, hmi, hne, h0, mapGet_insert_self]
    · cases hc : first.children.isEmpty
      · cases hmc : mapContains tb.child_submenu_selections (m - tb.menu_items.length) <;>
          simp [handle_keyboard_navigation, activateBlock, clickCloseBlock, handleTopLR,
            currentHighlightedHasSidemenu, handleEnter, enterPriority1, enterPriority2,
            enterPriority3, handleSubmenuNav, navUpDown, navRight, navLeft, navChild,
            enterInput, noKeys, hact, hopen, hsel, hnm, hmi, hne, h0, hc, hmc,
            mapGet_insert_self]
      · simp [handle_keyboard_navigation, activateBlock, clickCloseBlock, handleTopLR,
          currentHighlightedHasSidemenu, handleEnter, enterPriority1, enterPriority2,
          enterPriority3, handleSubmenuNav, navUpDown, navRight, navLeft, navChild,
          enterInput, noKeys, hact, hopen, hsel, hnm, hmi, hne, h0, hc,
          mapGet_insert_self]
  · intro tb osi j c mi s hact hopen hguard hchild hsel hmi hs hen hleaf hcb
    simp [handle_keyboard_navigation, activateBlock, clickCloseBlock, handleTopLR,
      currentHighlightedHasSidemenu, handleEnter, enterPriority1, enterPriority2,
      enterInput, noKeys, hact, hopen, hguard, hchild, hsel, hmi, hs, hen, hleaf, hcb]

/-- C3 witness: the theorem applied to the spec §8 tree — Enter at
`TopLevelSelected 0` opens the File submenu at index 0 firing nothing, and
Enter with the leaf `itemNew` (callback 7) highlighted fires `[7]` and
closes. -/
theorem c3_witness :
    ((handle_keyboard_navigation
        { baseTB with keyboard_navigation_active := true,
                      selected_menu_index := some 0 } enterInput).1.open_submenu
      = some 0 ∧
     mapGet (handle_keyboard_navigation
        { baseTB with keyboard_navigation_active := true,
                      selected_menu_index := some 0 } enterInput).1.submenu_selections 0
      = some 0 ∧
     (handle_keyboard_navigation
        { baseTB with keyboard_navigation_active := true,
                      selected_menu_index := some 0 } enterInput).2 = []) ∧
    ((handle_keyboard_navigation
        { baseTB with keyboard_navigation_active := true, selected_menu_index := some 0,
                      open_submenu := some 0, submenu_selections := [(0, 0)] }
        enterInput).2 = [7] ∧
     (handle_keyboard_navigation
        { baseTB with keyboard_navigation_active := true, selected_menu_index := some 0,
                      open_submenu := some 0, submenu_selections := [(0, 0)] }
        enterInput).1.open_submenu = none) :=
  ⟨c3_enter_open_then_activate.1 _ 0 fileMenu rfl rfl rfl (Nat.le_refl 0) rfl rfl,
   c3_enter_open_then_activate.2 _ 0 0 7 fileMenu itemNew rfl rfl rfl rfl rfl rfl rfl
     rfl rfl rfl⟩

/-- C6 (amended): while keyboard navigation is active with a submenu open,
a primary click at any point outside the menu-bar rectangle (in particular
outside the union of menu bar and submenu regions, but also *inside* an
open submenu region — see the counterexample) closes all submenu levels,
clears the force-open flag and child selections, fires nothing, and leaves
the keyboard-navigation flag and the selected top-level index unchanged. -/
theorem c6_outside_click_closes (tb : TitleBar) (k : Nat) (p : ℚ × ℚ) (w : ℚ)
    (hact : tb.keyboard_navigation_active = true)
    (hopen : tb.open_submenu = some k)
    (hout : menuBarContains w p = false) :
    (handle_keyboard_navigation tb (clickInput p w)).1.open_submenu = none ∧
    (handle_keyboard_navigation tb (clickInput p w)).1.force_open_child_subitem = none ∧
    (handle_keyboard_navigation tb (clickInput p w)).1.child_submenu_selections = [] ∧
    (handle_keyboard_navigation tb (clickInput p w)).1.keyboard_navigation_active = true ∧
    (handle_keyboard_navigation tb (clickInput p w)).1.selected_menu_index
      = tb.selected_menu_index ∧
    (handle_keyboard_navigation tb (clickInput p w)).2 = [] := by
  simp [handle_keyboard_navigation, activateBlock, clickCloseBlock, handleTopLR,
    currentHighlightedHasSidemenu, handleEnter, handleSubmenuNav, navUpDown, navRight, navLeft, navChild, clickInput, noKeys,
    hact, hopen, hout]

/-- C6 witness: clicking at (500, 400), far outside the 800×32 menu bar,
with the residual-state fixture open. -/
theorem c6_witness :
    (handle_keyboard_navigation residualTB (clickInput (500, 400) 800)).1.open_submenu
      = none ∧
    (handle_keyboard_navigation residualTB
      (clickInput (500, 400) 800)).1.force_open_child_subitem = none ∧
    (handle_keyboard_navigation residualTB
      (clickInput (500, 400) 800)).1.child_submenu_selections = [] ∧
    (handle_keyboard_navigation residualTB
      (clickInput (500, 400) 800)).1.keyboard_navigation_active = true ∧
    (handle_keyboard_navigation residualTB
      (clickInput (500, 400) 800)).1.selected_menu_index
      = residualTB.selected_menu_index ∧
    (handle_keyboard_navigation residualTB (clickInput (500, 400) 800)).2 = [] :=
  c6_outside_click_closes residualTB 0 (500, 400) 800 rfl rfl
    (by with_unfolding_all rfl)

/-- `usizeSub1` agrees with plain `n - 1` below the `usize` modulus. -/
theorem usizeSub1_eq (n : Nat) (h1 : 1 ≤ n) (h2 : n < USIZE) :
    usizeSub1 n = n - 1 := by
  unfold usizeSub1 USIZE at *
  omega

/-- Field-level description of one ArrowRight step from a depth-0 keyboard
state: the index moves by one when strictly below `total - 1`
(wrapping-subtraction bound) and stays put otherwise; all invariant fields
are preserved. -/
theorem stepRight_fields (tb : TitleBar) (i : Nat)
    (hact : tb.keyboard_navigation_active = true)
    (hopen : tb.open_submenu = none)
    (hss : tb.selected_submenu_index = none)
    (hsel : tb.selected_menu_index = some i) :
    (stepRight tb).selected_menu_index
      = some (if i < usizeSub1 (tb.menu_items.length + tb.menu_items_with_submenus.length)
              then i + 1 else i) ∧
    (stepRight tb).open_submenu = none ∧
    (stepRight tb).keyboard_navigation_active = true ∧
    (stepRight tb).selected_submenu_index = none ∧
    (stepRight tb).menu_items = tb.menu_items ∧
    (stepRight tb).menu_items_with_submenus = tb.menu_items_with_submenus := by
  by_cases hlt : i < usizeSub1 (tb.menu_items.length + tb.menu_items_with_submenus.length) <;>
    simp [stepRight, handle_keyboard_navigation, activateBlock, clickCloseBlock,
      handleTopLR, currentHighlightedHasSidemenu, lrLeft, lrRight, handleEnter,
      handleSubmenuNav, navUpDown, navRight, navLeft, navChild, rightInput, noKeys,
      hact, hopen, hss, hsel, hlt]

/-- Iterated ArrowRight presses from index `i`: the selected index is the
clamped `min (i + k) (N - 1)`. -/
theorem stepRight_iter (N : Nat) (h2 : N < USIZE) (h1 : 1 ≤ N) :
    ∀ (k i : Nat) (tb : TitleBar),
      N = tb.menu_items.length + tb.menu_items_with_submenus.length →
      tb.keyboard_navigation_active = true →
      tb.open_submenu = none →
      tb.selected_submenu_index = none →
      tb.selected_menu_index = some i →
      i ≤ N - 1 →
      (stepRight^[k] tb).selected_menu_index = some (min (i + k) (N - 1)) := by
  intro k
  induction k with
  | zero =>
    intro i tb hN hact hopen hss hsel hle
    simpa [hsel] using congrArg some (by omega : i = min (i + 0) (N - 1))
  | succ k ih =>
    intro i tb hN hact hopen hss hsel hle
    obtain ⟨f1, f2, f3, f4, f5, f6⟩ := stepRight_fields tb i hact hopen hss hsel
    rw [Function.iterate_succ_apply]
    rw [← hN, usizeSub1_eq N h1 h2] at f1
    by_cases hlt : i < N - 1
    · rw [if_pos hlt] at f1
      have := ih (i + 1) (stepRight tb) (by rw [hN, f5, f6]) f3 f2 f4 f1 (by omega)
      rw [this]
      congr 1
      omega
    · rw [if_neg hlt] at f1
      have := ih i (stepRight tb) (by rw [hN, f5, f6]) f3 f2 f4 f1 hle
      rw [this]
      congr 1
      omega

/-- C8: with `N ≥ 1` top-level entries and keyboard navigation active at
depth 0 on index 0, `N - 1` ArrowRight presses land on index `N - 1`, one
further press leaves it there (clamped, no wraparound), and ArrowLeft at
index 0 is a no-op. -/
theorem c8_arrow_right_clamps (tb : TitleBar) (N : Nat)
    (hN : N = tb.menu_items.length + tb.menu_items_with_submenus.length)
    (h1 : 1 ≤ N) (h2 : N < USIZE)
    (hact : tb.keyboard_navigation_active = true)
    (hopen : tb.open_submenu = none)
    (hss : tb.selected_submenu_index = none)
    (hsel : tb.selected_menu_index = some 0) :
    (stepRight^[N - 1] tb).selected_menu_index = some (N - 1) ∧
    (stepRight^[N] tb).selected_menu_index = some (N - 1) ∧
    (handle_keyboard_navigation tb leftInput).1.selected_menu_index = some 0 := by
  refine ⟨?_, ?_, ?_⟩
  · rw [stepRight_iter N h2 h1 (N - 1) 0 tb hN hact hopen hss hsel (by omega)]
    congr 1
    omega
  · rw [stepRight_iter N h2 h1 N 0 tb hN hact hopen hss hsel (by omega)]
    congr 1
    omega
  · simp [handle_keyboard_navigation, activateBlock, clickCloseBlock, handleTopLR,
      currentHighlightedHasSidemenu, lrLeft, handleEnter, handleSubmenuNav,
      leftInput, noKeys, hact, hopen, hss, hsel]

/-- C8 witness: the two-entry fixture — one ArrowRight lands on index 1, a
second leaves it there, ArrowLeft from 0 is a no-op. -/
theorem c8_witness :
    (stepRight^[1] twoEntryTB).selected_menu_index = some 1 ∧
    (stepRight^[2] twoEntryTB).selected_menu_index = some 1 ∧
    (handle_keyboard_navigation twoEntryTB leftInput).1.selected_menu_index = some 0 :=
  c8_arrow_right_clamps twoEntryTB 2 rfl (by decide) (by decide) rfl rfl rfl rfl

/-- A pressed, enabled subitem with a callback fires exactly that callback
in the shortcut scan. -/
theorem subitemShortcutFires_eq (pressed : List Nat) (s : SubMenuItem) (k c : Nat)
    (hk : s.shortcut = some k) (hp : pressed.contains k = true)
    (hen : s.enabled = true) (hc : s.callback = some c) :
    subitemShortcutFires pressed s = [c] := by
  have hp2 : k ∈ pressed := by simpa using hp
  simp [subitemShortcutFires, hk, hp2, hen, hc]

/-- Membership in the per-menu shortcut scan. -/
theorem menuShortcutFires_mem (pressed : List Nat) (l : List SubMenuItem)
    (s : SubMenuItem) (k c : Nat)
    (hs : s ∈ l) (hk : s.shortcut = some k) (hp : pressed.contains k = true)
    (hen : s.enabled = true) (hc : s.callback = some c) :
    c ∈ menuShortcutFires pressed l := by
  induction l with
  | nil => cases hs
  | cons x rest ih =>
    rcases List.mem_cons.mp hs with h | h
    · subst h
      rw [menuShortcutFires, subitemShortcutFires_eq pressed s k c hk hp hen hc]
      exact List.mem_append_left _ (List.mem_singleton.mpr rfl)
    · exact List.mem_append_right _ (ih h)

/-- Membership in the whole shortcut scan. -/
theorem menusShortcutFires_mem (pressed : List Nat) (menus : List MenuItem)
    (mi : MenuItem) (s : SubMenuItem) (k c : Nat)
    (hmi : mi ∈ menus) (hs : s ∈ mi.subitems) (hk : s.shortcut = some k)
    (hp : pressed.contains k = true) (hen : s.enabled = true)
    (hc : s.callback = some c) :
    c ∈ menusShortcutFires pressed menus := by
  induction menus with
  | nil => cases hmi
  | cons x rest ih =>
    rcases List.mem_cons.mp hmi with h | h
    · subst h
      exact List.mem_append_left _ (menuShortcutFires_mem pressed mi.subitems s k c hs hk hp hen hc)
    · exact List.mem_append_right _ (ih h)

/-- C2 (amended): a registered shortcut fires its item's callback when
pressed — for enabled *direct* subitems (depth 1) of submenu-bearing
top-level entries.  Shortcuts on deeper items (children of children) never
fire, because the scan does not recurse (see the counterexample). -/
theorem c2_direct_subitem_shortcut_fires (tb : TitleBar) (pressed : List Nat)
    (mi : MenuItem) (s : SubMenuItem) (k c : Nat)
    (hmi : mi ∈ tb.menu_items_with_submenus)
    (hs : s ∈ mi.subitems)
    (hk : s.shortcut = some k)
    (hp : pressed.contains k = true)
    (hen : s.enabled = true)
    (hc : s.callback = some c) :
    c ∈ check_keyboard_shortcuts tb pressed :=
  menusShortcutFires_mem pressed tb.menu_items_with_submenus mi s k c hmi hs hk hp hen hc

/-- C2 witness: pressing shortcut 5 fires `itemNew`'s callback 7 in the
spec §8 tree. -/
theorem c2_witness : 7 ∈ check_keyboard_shortcuts baseTB [5] :=
  c2_direct_subitem_shortcut_fires baseTB [5] fileMenu itemNew 5 7
    (List.mem_singleton.mpr rfl) (List.mem_cons_self _ _) rfl rfl rfl rfl

/-- A priority-1 activation fires only the callback of an enabled depth-2
child. -/
theorem enterPriority1_legit (tb tb2 : TitleBar) (fired : List Nat) (c : Nat)
    (h : enterPriority1 tb = some (tb2, fired)) (hc : c ∈ fired) :
    LegitFire tb.menu_items tb.menu_items_with_submenus c := by
  unfold enterPriority1 at h
  rcases ho : tb.open_submenu with _ | osi
  · simp [ho] at h
  simp only [ho] at h
  rcases h1 : mapGet tb.child_submenu_selections osi with _ | csi
  · simp [h1] at h
  simp only [h1] at h
  rcases h2 : tb.menu_items_with_submenus[osi]? with _ | menu_item
  · simp [h2] at h
  simp only [h2] at h
  rcases h3 : tb.force_open_child_subitem with _ | ci
  · simp [h3] at h
  simp only [h3] at h
  rcases h4 : menu_item.subitems[ci]? with _ | child_item
  · simp [h4] at h
  simp only [h4] at h
  rcases h5 : child_item.children[csi]? with _ | child_subitem
  · simp [h5] at h
  simp only [h5] at h
  rcases h6 : child_subitem.enabled with _ | _
  · simp [h6] at h
  simp only [h6, if_true, Option.some.injEq, Prod.mk.injEq] at h
  obtain ⟨-, hfv⟩ := h
  subst hfv
  rcases h7 : child_subitem.callback with _ | c0
  · simp [h7] at hc
  rw [h7] at hc
  simp [Option.toList] at hc
  subst hc
  exact Or.inr ⟨menu_item, mem_of_idx_eq_some h2, child_subitem,
    Or.inr ⟨child_item, mem_of_idx_eq_some h4, mem_of_idx_eq_some h5⟩, h6, h7⟩

/-- A priority-2 activation fires only the callback of an enabled depth-1
subitem. -/
theorem enterPriority2_legit (tb tb2 : TitleBar) (fired : List Nat) (c : Nat)
    (h : enterPriority2 tb = some (tb2, fired)) (hc : c ∈ fired) :
    LegitFire tb.menu_items tb.menu_items_with_submenus c := by
  unfold enterPriority2 at h
  rcases ho : tb.open_submenu with _ | osi
  · simp [ho] at h
  simp only [ho] at h
  rcases hg : tb.submenu_just_opened_frame with _ | _
  case true =>
    simp only [hg, if_true, Option.some.injEq, Prod.mk.injEq] at h
    obtain ⟨-, hfv⟩ := h
    subst hfv
    cases hc
  simp only [hg, Bool.false_eq_true, if_false] at h
  rcases h1 : mapGet tb.submenu_selections osi with _ | si
  · simp [h1] at h
  simp only [h1] at h
  rcases h2 : tb.menu_items_with_submenus[osi]? with _ | menu_item
  · simp [h2] at h
  simp only [h2] at h
  rcases h3 : menu_item.subitems[si]? with _ | subitem
  · simp [h3] at h
  simp only [h3] at h
  rcases h4 : subitem.enabled && subitem.children.isEmpty with _ | _
  · simp [h4] at h
  simp only [h4, if_true, Option.some.injEq, Prod.mk.injEq] at h
  obtain ⟨-, hfv⟩ := h
  subst hfv
  rcases h5 : subitem.callback with _ | c0
  · simp [h5] at hc
  rw [h5] at hc
  simp [Option.toList] at hc
  subst hc
  have h4a : subitem.enabled = true := by
    have h4b := h4
    simp at h4b
    exact h4b.1
  exact Or.inr ⟨menu_item, mem_of_idx_eq_some h2, subitem,
    Or.inl (mem_of_idx_eq_some h3), h4a, h5⟩

/-- A priority-3 activation fires only a simple menu item's callback. -/
theorem enterPriority3_legit (tb : TitleBar) (c : Nat)
    (hc : c ∈ (enterPriority3 tb).2) :
    LegitFire tb.menu_items tb.menu_items_with_submenus c := by
  unfold enterPriority3 at hc
  rcases hsel : tb.selected_menu_index with _ | m
  · simp [hsel] at hc
  simp only [hsel] at hc
  by_cases hm : m < tb.menu_items.length
  · simp only [if_pos hm] at hc
    rcases hp : tb.menu_items[m]? with _ | p
    · simp [hp] at hc
    simp only [hp] at hc
    rcases hq : p.2 with _ | c0
    · simp [hq] at hc
    rw [hq] at hc
    simp [Option.toList] at hc
    subst hc
    exact Or.inl ⟨p, mem_of_idx_eq_some hp, hq⟩
  · simp only [if_neg hm] at hc
    rcases hq : tb.menu_items_with_submenus[m - tb.menu_items.length]? with _ | mi
    · simp [hq] at hc
    simp only [hq] at hc
    rcases hne : mi.subitems.isEmpty with _ | _ <;> simp [hne] at hc

/-- The Enter/Space handler fires only legitimate callbacks. -/
theorem handleEnter_legit (tb : TitleBar) (inp : Input) (c : Nat)
    (hc : c ∈ (handleEnter tb inp).2.1) :
    LegitFire tb.menu_items tb.menu_items_with_submenus c := by
  unfold handleEnter at hc
  by_cases he : inp.enter || inp.space
  · simp only [he, if_true] at hc
    rcases h1 : enterPriority1 tb with _ | ⟨tb2, fired⟩
    · simp only [h1] at hc
      rcases h2 : enterPriority2 tb with _ | ⟨tb3, fired2⟩
      · simp only [h2] at hc
        exact enterPriority3_legit tb c hc
      · simp only [h2] at hc
        exact enterPriority2_legit tb tb3 fired2 c h2 hc
    · simp only [h1] at hc
      exact enterPriority1_legit tb tb2 fired c h1 hc
  · simp [he] at hc

/-- The per-menu shortcut scan fires only enabled direct subitems. -/
theorem menuShortcutFires_legit (pressed : List Nat) (l : List SubMenuItem) (c : Nat)
    (hc : c ∈ menuShortcutFires pressed l) :
    ∃ s ∈ l, s.enabled = true ∧ s.callback = some c := by
  induction l with
  | nil => cases hc
  | cons x rest ih =>
    rw [menuShortcutFires] at hc
    rcases List.mem_append.mp hc with h | h
    · refine ⟨x, List.mem_cons_self _ _, ?_⟩
      unfold subitemShortcutFires at h
      rcases hk : x.shortcut with _ | k
      · simp [hk] at h
      simp only [hk] at h
      simp at h
      exact ⟨h.1.2, h.2⟩
    · obtain ⟨s, hs, hrest⟩ := ih h
      exact ⟨s, List.mem_cons_of_mem _ hs, hrest⟩

/-- The whole shortcut scan fires only enabled direct subitems of some
menu. -/
theorem menusShortcutFires_legit (pressed : List Nat) (menus : List MenuItem) (c : Nat)
    (hc : c ∈ menusShortcutFires pressed menus) :
    ∃ mi ∈ menus, ∃ s ∈ mi.subitems, s.enabled = true ∧ s.callback = some c := by
  induction menus with
  | nil => cases hc
  | cons x rest ih =>
    rw [menusShortcutFires] at hc
    rcases List.mem_append.mp hc with h | h
    · obtain ⟨s, hs, hrest⟩ := menuShortcutFires_legit pressed x.subitems c h
      exact ⟨x, List.mem_cons_self _ _, s, hs, hrest⟩
    · obtain ⟨mi, hmi, hrest⟩ := ih h
      exact ⟨mi, List.mem_cons_of_mem _ hmi, hrest⟩

/-- The activation block never touches the menu lists; it either leaves the
selection alone or sets it to index 0. -/
theorem activateBlock_fields (tb : TitleBar) (inp : Input) :
    (activateBlock tb inp).menu_items = tb.menu_items ∧
    (activateBlock tb inp).menu_items_with_submenus = tb.menu_items_with_submenus ∧
    ((activateBlock tb inp).selected_menu_index = tb.selected_menu_index ∨
      (activateBlock tb inp).selected_menu_index = some 0) := by
  unfold activateBlock
  split <;> simp

/-- The outside-click block touches neither the menu lists nor the
selection nor the active flag. -/
theorem clickCloseBlock_fields (tb : TitleBar) (inp : Input) :
    (clickCloseBlock tb inp).menu_items = tb.menu_items ∧
    (clickCloseBlock tb inp).menu_items_with_submenus = tb.menu_items_with_submenus ∧
    (clickCloseBlock tb inp).selected_menu_index = tb.selected_menu_index ∧
    (clickCloseBlock tb inp).keyboard_navigation_active = tb.keyboard_navigation_active := by
  simp only [clickCloseBlock]
  split
  · split <;> simp
  · simp

/-- Top-level left/right handling never touches the menu lists. -/
theorem handleTopLR_fields (tb : TitleBar) (inp : Input) :
    (handleTopLR tb inp).menu_items = tb.menu_items ∧
    (handleTopLR tb inp).menu_items_with_submenus = tb.menu_items_with_submenus := by
  simp only [handleTopLR, lrLeft, lrRight]
  repeat' split
  all_goals simp

/-- Priority 1 changes neither the selection nor the menu lists. -/
theorem enterPriority1_state (tb tb2 : TitleBar) (fired : List Nat)
    (h : enterPriority1 tb = some (tb2, fired)) :
    tb2.selected_menu_index = tb.selected_menu_index ∧
    tb2.menu_items = tb.menu_items ∧
    tb2.menu_items_with_submenus = tb.menu_items_with_submenus := by
  unfold enterPriority1 at h
  repeat' split at h
  all_goals first
    | exact Option.noConfusion h
    | (cases h; exact ⟨rfl, rfl, rfl⟩)

/-- Priority 2 changes neither the selection nor the menu lists. -/
theorem enterPriority2_state (tb tb2 : TitleBar) (fired : List Nat)
    (h : enterPriority2 tb = some (tb2, fired)) :
    tb2.selected_menu_index = tb.selected_menu_index ∧
    tb2.menu_items = tb.menu_items ∧
    tb2.menu_items_with_submenus = tb.menu_items_with_submenus := by
  unfold enterPriority2 at h
  repeat' split at h
  all_goals first
    | exact Option.noConfusion h
    | (cases h; exact ⟨rfl, rfl, rfl⟩)

/-- Priority 3 changes neither the selection nor the menu lists. -/
theorem enterPriority3_state (tb : TitleBar) :
    (enterPriority3 tb).1.selected_menu_index = tb.selected_menu_index ∧
    (enterPriority3 tb).1.menu_items = tb.menu_items ∧
    (enterPriority3 tb).1.menu_items_with_submenus = tb.menu_items_with_submenus := by
  unfold enterPriority3
  rcases hsel : tb.selected_menu_index with _ | m
  · simp [hsel]
  · by_cases hm : m < tb.menu_items.length
    · simp only [if_pos hm]
      rcases hp : tb.menu_items[m]? with _ | p <;> simp [hp, hsel]
    · simp only [if_neg hm]
      rcases hq : tb.menu_items_with_submenus[m - tb.menu_items.length]? with _ | mi
      · simp [hq, hsel]
      · rcases hne : mi.subitems.isEmpty with _ | _ <;> simp [hq, hne, hsel]

/-- The Enter/Space handler changes neither the selection nor the menu
lists. -/
theorem handleEnter_state (tb : TitleBar) (inp : Input) :
    (handleEnter tb inp).1.selected_menu_index = tb.selected_menu_index ∧
    (handleEnter tb inp).1.menu_items = tb.menu_items ∧
    (handleEnter tb inp).1.menu_items_with_submenus = tb.menu_items_with_submenus := by
  unfold handleEnter
  by_cases he : inp.enter || inp.space
  · simp only [he, if_true]
    rcases h1 : enterPriority1 tb with _ | ⟨tb2, fired⟩
    · simp only [h1]
      rcases h2 : enterPriority2 tb with _ | ⟨tb3, fired2⟩
      · simp only [h2]
        exact enterPriority3_state tb
      · simp only [h2]
        exact enterPriority2_state tb tb3 fired2 h2
    · simp only [h1]
      exact enterPriority1_state tb tb2 fired h1
  · simp [he]

/-- The submenu navigation block changes neither the selection nor the menu
lists nor the active flag. -/
theorem navUpDown_state (menu_item : MenuItem) (osi : Nat) (inp : Input) (tb : TitleBar) :
    (navUpDown menu_item osi inp tb).selected_menu_index = tb.selected_menu_index ∧
    (navUpDown menu_item osi inp tb).menu_items = tb.menu_items ∧
    (navUpDown menu_item osi inp tb).menu_items_with_submenus = tb.menu_items_with_submenus := by
  simp only [navUpDown]
  repeat' split
  all_goals simp

/-- ArrowRight force-open preserves selection and menus. -/
theorem navRight_state (menu_item : MenuItem) (osi : Nat) (inp : Input) (tb : TitleBar) :
    (navRight menu_item osi inp tb).selected_menu_index = tb.selected_menu_index ∧
    (navRight menu_item osi inp tb).menu_items = tb.menu_items ∧
    (navRight menu_item osi inp tb).menu_items_with_submenus = tb.menu_items_with_submenus := by
  simp only [navRight]
  repeat' split
  all_goals simp

/-- ArrowLeft back-out preserves selection and menus. -/
theorem navLeft_state (osi : Nat) (inp : Input) (tb : TitleBar) :
    (navLeft osi inp tb).selected_menu_index = tb.selected_menu_index ∧
    (navLeft osi inp tb).menu_items = tb.menu_items ∧
    (navLeft osi inp tb).menu_items_with_submenus = tb.menu_items_with_submenus := by
  simp only [navLeft]
  repeat' split
  all_goals simp

/-- Child-list navigation preserves selection and menus. -/
theorem navChild_state (menu_item : MenuItem) (osi : Nat) (inp : Input) (tb : TitleBar) :
    (navChild menu_item osi inp tb).selected_menu_index = tb.selected_menu_index ∧
    (navChild menu_item osi inp tb).menu_items = tb.menu_items ∧
    (navChild menu_item osi inp tb).menu_items_with_submenus = tb.menu_items_with_submenus := by
  simp only [navChild]
  repeat' split
  all_goals simp

/-- The submenu navigation block changes neither the selection nor the menu
lists. -/
theorem handleSubmenuNav_state (tb : TitleBar) (inp : Input) :
    (handleSubmenuNav tb inp).selected_menu_index = tb.selected_menu_index ∧
    (handleSubmenuNav tb inp).menu_items = tb.menu_items ∧
    (handleSubmenuNav tb inp).menu_items_with_submenus = tb.menu_items_with_submenus := by
  unfold handleSubmenuNav
  rcases ho : tb.open_submenu with _ | osi
  · simp
  rcases hm : tb.menu_items_with_submenus[osi]? with _ | menu_item
  · simp [hm]
  simp only [hm]
  obtain ⟨a1, a2, a3⟩ := navUpDown_state menu_item osi inp tb
  obtain ⟨b1, b2, b3⟩ := navRight_state menu_item osi inp (navUpDown menu_item osi inp tb)
  obtain ⟨c1, c2, c3⟩ := navLeft_state osi inp
    (navRight menu_item osi inp (navUpDown menu_item osi inp tb))
  obtain ⟨d1, d2, d3⟩ := navChild_state menu_item osi inp
    (navLeft osi inp (navRight menu_item osi inp (navUpDown menu_item osi inp tb)))
  exact ⟨by rw [d1, c1, b1, a1], by rw [d2, c2, b2, a2], by rw [d3, c3, b3, a3]⟩

/-- Every callback the keyboard-navigation pass fires belongs to a simple
menu item or to an enabled subitem at depth 1 or 2. -/
theorem hkn_fired_legit (tb : TitleBar) (inp : Input) (c : Nat)
    (hc : c ∈ (handle_keyboard_navigation tb inp).2) :
    LegitFire tb.menu_items tb.menu_items_with_submenus c := by
  simp only [handle_keyboard_navigation] at hc
  split at hc
  · simp at hc
  · split at hc
    · simp at hc
    · have e1 : (handleTopLR (clickCloseBlock (activateBlock tb inp) inp) inp).menu_items
          = tb.menu_items := by
        rw [(handleTopLR_fields _ inp).1, (clickCloseBlock_fields _ inp).1,
          (activateBlock_fields tb inp).1]
      have e2 : (handleTopLR (clickCloseBlock (activateBlock tb inp) inp)
            inp).menu_items_with_submenus = tb.menu_items_with_submenus := by
        rw [(handleTopLR_fields _ inp).2, (clickCloseBlock_fields _ inp).2.1,
          (activateBlock_fields tb inp).2.1]
      split at hc
      · have hl := handleEnter_legit _ inp c hc
        rw [e1, e2] at hl
        exact hl
      · have hl := handleEnter_legit _ inp c hc
        rw [e1, e2] at hl
        exact hl

/-- C4 (amended): a disabled item's own callback is never invoked — every
callback fired by keyboard navigation or shortcut dispatch belongs to a
simple menu item or an *enabled* subitem, a click on a disabled row fires
nothing and reports no activation, and hover never opens a disabled row's
child panel.  (Keyboard ArrowRight can nevertheless force-open a disabled
item's child submenu, and ArrowUp/Down can land on disabled items — see
the counterexample.) -/
theorem c4_disabled_never_fires :
    (∀ (tb : TitleBar) (inp : Input) (c : Nat),
      c ∈ (handle_keyboard_navigation tb inp).2 →
      LegitFire tb.menu_items tb.menu_items_with_submenus c) ∧
    (∀ (tb : TitleBar) (pressed : List Nat) (c : Nat),
      c ∈ check_keyboard_shortcuts tb pressed →
      LegitFire tb.menu_items tb.menu_items_with_submenus c) ∧
    (∀ (s : SubMenuItem) (clicked : Bool), s.enabled = false →
      subitemClick s clicked = ([], false)) ∧
    (∀ (s : SubMenuItem) (hovered : Bool) (ptr : Option (ℚ × ℚ))
        (ir cr : Rectq), s.enabled = false →
      openChildDecision s hovered ptr ir cr = false) := by
  refine ⟨hkn_fired_legit, ?_, ?_, ?_⟩
  · intro tb pressed c hc
    obtain ⟨mi, hmi, s, hs, hen, hcb⟩ := menusShortcutFires_legit pressed _ c hc
    exact Or.inr ⟨mi, hmi, s, Or.inl hs, hen, hcb⟩
  · intro s clicked hen
    simp [subitemClick, hen]
  · intro s hovered ptr ir cr hen
    simp [openChildDecision, hen]

/-- C4 witness: the four parts at concrete inputs — an Enter activation of
`itemNew` (callback 7) is legitimate, a shortcut firing of callback 1 is
legitimate, the disabled `itemExit` click and the disabled
`disabledParent` hover-open decision are both inert. -/
theorem c4_witness :
    LegitFire baseTB.menu_items baseTB.menu_items_with_submenus 7 ∧
    LegitFire twoShortcutTB.menu_items twoShortcutTB.menu_items_with_submenus 1 ∧
    subitemClick itemExit true = ([], false) ∧
    openChildDecision disabledParent true none ⟨0, 0, 10, 10⟩ ⟨0, 0, 10, 10⟩ = false :=
  ⟨c4_disabled_never_fires.1
      { baseTB with keyboard_navigation_active := true, selected_menu_index := some 0,
                    open_submenu := some 0, submenu_selections := [(0, 0)] }
      enterInput 7 (by decide),
   c4_disabled_never_fires.2.1 twoShortcutTB [3] 1 (by decide),
   c4_disabled_never_fires.2.2.1 itemExit true rfl,
   c4_disabled_never_fires.2.2.2 disabledParent true none ⟨0, 0, 10, 10⟩
     ⟨0, 0, 10, 10⟩ rfl⟩

/-- Transport of the index-range invariant along equal selection and menu
fields. -/
theorem selectedInRange_transport (a b : TitleBar)
    (hs : a.selected_menu_index = b.selected_menu_index)
    (hm : a.menu_items = b.menu_items)
    (hw : a.menu_items_with_submenus = b.menu_items_with_submenus)
    (h : selectedInRange b) : selectedInRange a := by
  intro j hj
  rw [hm, hw]
  exact h j (by rw [← hs]; exact hj)

/-- ArrowLeft keeps the selected index in range. -/
theorem lrLeft_inRange (tb : TitleBar) (h : selectedInRange tb) :
    selectedInRange (lrLeft tb) ∧
    (lrLeft tb).menu_items = tb.menu_items ∧
    (lrLeft tb).menu_items_with_submenus = tb.menu_items_with_submenus := by
  unfold lrLeft
  rcases hsel : tb.selected_menu_index with _ | i
  · exact ⟨h, by trivial, by trivial⟩
  · by_cases hi : 0 < i
    · simp only [if_pos hi]
      refine ⟨?_, by trivial, by trivial⟩
      intro j hj
      simp at hj
      have := h i hsel
      simp
      omega
    · simp only [if_neg hi]
      exact ⟨h, by trivial, by trivial⟩

/-- ArrowRight keeps the selected index in range, provided at least one
entry exists and the total is below the `usize` modulus. -/
theorem lrRight_inRange (tb : TitleBar) (h : selectedInRange tb)
    (h1 : 1 ≤ tb.menu_items.length + tb.menu_items_with_submenus.length)
    (h2 : tb.menu_items.length + tb.menu_items_with_submenus.length < USIZE) :
    selectedInRange (lrRight tb) ∧
    (lrRight tb).menu_items = tb.menu_items ∧
    (lrRight tb).menu_items_with_submenus = tb.menu_items_with_submenus := by
  simp only [lrRight]
  rcases hsel : tb.selected_menu_index with _ | i
  · exact ⟨h, by trivial, by trivial⟩
  · by_cases hi : i < usizeSub1 (tb.menu_items.length + tb.menu_items_with_submenus.length)
    · simp only [if_pos hi]
      refine ⟨?_, by trivial, by trivial⟩
      intro j hj
      simp at hj
      have hu := usizeSub1_eq _ h1 h2
      simp
      omega
    · simp only [if_neg hi]
      exact ⟨h, by trivial, by trivial⟩

/-- The top-level left/right block keeps the selected index in range. -/
theorem handleTopLR_inRange (tb : TitleBar) (inp : Input)
    (h : selectedInRange tb)
    (h1 : 1 ≤ tb.menu_items.length + tb.menu_items_with_submenus.length)
    (h2 : tb.menu_items.length + tb.menu_items_with_submenus.length < USIZE) :
    selectedInRange (handleTopLR tb inp) ∧
    (handleTopLR tb inp).menu_items = tb.menu_items ∧
    (handleTopLR tb inp).menu_items_with_submenus = tb.menu_items_with_submenus := by
  simp only [handleTopLR]
  split
  · exact ⟨h, by trivial, by trivial⟩
  · have step1 : selectedInRange (if inp.arrow_left then lrLeft tb else tb) ∧
        (if inp.arrow_left then lrLeft tb else tb).menu_items = tb.menu_items ∧
        (if inp.arrow_left then lrLeft tb else tb).menu_items_with_submenus
          = tb.menu_items_with_submenus := by
      by_cases hl : inp.arrow_left
      · simp only [if_pos hl]
        exact lrLeft_inRange tb h
      · simp only [if_neg hl]
        exact ⟨h, by trivial, by trivial⟩
    obtain ⟨s1, s2, s3⟩ := step1
    by_cases hr : inp.arrow_right
    · simp only [if_pos hr]
      obtain ⟨r1, r2, r3⟩ := lrRight_inRange _ s1 (by rw [s2, s3]; exact h1)
        (by rw [s2, s3]; exact h2)
      exact ⟨r1, by rw [r2, s2], by rw [r3, s3]⟩
    · simp only [if_neg hr]
      exact ⟨s1, s2, s3⟩

/-- The activation block keeps the selected index in range when at least
one entry exists. -/
theorem activateBlock_inRange (tb : TitleBar) (inp : Input)
    (h : selectedInRange tb)
    (h1 : 1 ≤ tb.menu_items.length + tb.menu_items_with_submenus.length) :
    selectedInRange (activateBlock tb inp) := by
  obtain ⟨m1, m2, hsel⟩ := activateBlock_fields tb inp
  rcases hsel with hs | hs
  · exact selectedInRange_transport _ _ hs m1 m2 h
  · intro j hj
    rw [hs] at hj
    simp at hj
    rw [m1, m2]
    omega

/-- C10 (amended): with at least one configured top-level entry (and a
total below the `usize` modulus), one frame of keyboard navigation keeps
the selected top-level index a valid index into the combined entry list.
With zero entries the property fails: Alt activation selects index 0 and
the `total - 1` bound underflows (see the counterexample). -/
theorem c10_selected_in_range (tb : TitleBar) (inp : Input)
    (h1 : 1 ≤ tb.menu_items.length + tb.menu_items_with_submenus.length)
    (h2 : tb.menu_items.length + tb.menu_items_with_submenus.length < USIZE)
    (hinv : selectedInRange tb) :
    selectedInRange (handle_keyboard_navigation tb inp).1 := by
  simp only [handle_keyboard_navigation]
  have hA : selectedInRange (activateBlock tb inp) := activateBlock_inRange tb inp hinv h1
  obtain ⟨a1, a2, -⟩ := activateBlock_fields tb inp
  split
  · exact hA
  · split
    · intro j hj
      simp at hj
    · obtain ⟨c1, c2, c3, -⟩ := clickCloseBlock_fields (activateBlock tb inp) inp
      have hC : selectedInRange (clickCloseBlock (activateBlock tb inp) inp) :=
        selectedInRange_transport _ _ c3 c1 c2 hA
      obtain ⟨t1, t2, t3⟩ := handleTopLR_inRange (clickCloseBlock (activateBlock tb inp) inp)
        inp hC (by rw [c1, c2, a1, a2]; exact h1) (by rw [c1, c2, a1, a2]; exact h2)
      obtain ⟨e1, e2, e3⟩ :=
        handleEnter_state (handleTopLR (clickCloseBlock (activateBlock tb inp) inp) inp) inp
      split
      · exact selectedInRange_transport _ _ e1 e2 e3 t1
      · obtain ⟨n1, n2, n3⟩ := handleSubmenuNav_state
          (handleEnter (handleTopLR (clickCloseBlock (activateBlock tb inp) inp) inp) inp).1 inp
        refine selectedInRange_transport _ _ ?_ ?_ ?_ t1
        · rw [show ∀ u : TitleBar, ({ u with submenu_just_opened_frame := false
            : TitleBar }).selected_menu_index = u.selected_menu_index from fun _ => rfl]
          rw [n1, e1]
        · rw [show ∀ u : TitleBar, ({ u with submenu_just_opened_frame := false
            : TitleBar }).menu_items = u.menu_items from fun _ => rfl]
          rw [n2, e2]
        · rw [show ∀ u : TitleBar, ({ u with submenu_just_opened_frame := false
            : TitleBar }).menu_items_with_submenus = u.menu_items_with_submenus
            from fun _ => rfl]
          rw [n3, e3]

/-- C10 witness: one ArrowRight frame on the two-entry fixture keeps the
selected index in range. -/
theorem c10_witness :
    selectedInRange (handle_keyboard_navigation twoEntryTB rightInput).1 :=
  c10_selected_in_range twoEntryTB rightInput (by decide) (by decide)
    (by intro j hj; simp [twoEntryTB, baseTB] at hj ⊢; omega)

/-- C1: the click-token discipline around opening and closing a submenu.
(i) When the global click counter still equals the stored
`last_click_id` (the token has not advanced), the outside-click check of
`render_open_submenu` never closes anything, whatever the click is.
(ii) Clicking a top-level trigger opens its submenu and bumps the token;
the same frame's outside-click check — fed the very click that opened it,
whose position lies on the trigger inside the menu bar — leaves the
submenu open.  (iii) A later primary click at a position outside both the
submenu hit-test rect and the menu bar, with the counter past the stored
token (as it is immediately after an open), closes everything. -/
theorem c1_open_click_token :
    (∀ (tb : TitleBar) (counter : Nat) (inp : Input),
      counter = tb.last_click_id →
      (render_open_submenu_step tb counter inp false).open_submenu = tb.open_submenu) ∧
    (∀ (tb : TitleBar) (counter i : Nat) (mi : MenuItem) (p : ℚ × ℚ) (w : ℚ),
      tb.menu_items_with_submenus[i]? = some mi →
      mi.subitems.isEmpty = false →
      (tb.open_submenu = some i → False) →
      menuBarContains w p = true →
      (render_open_submenu_step (clickSubmenuTrigger tb counter i).1
        (clickSubmenuTrigger tb counter i).2 (clickInput p w) false).open_submenu
        = some i) ∧
    (∀ (tb : TitleBar) (counter i : Nat) (mi : MenuItem) (p : ℚ × ℚ) (w : ℚ),
      tb.open_submenu = some i →
      tb.menu_items_with_submenus[i]? = some mi →
      mi.subitems.isEmpty = false →
      tb.last_click_id < counter →
      rectContains (submenuX tb i) 32 200 100 p = false →
      menuBarContains w p = false →
      (render_open_submenu_step tb counter (clickInput p w) false).open_submenu = none ∧
      (render_open_submenu_step tb counter
        (clickInput p w) false).force_open_child_subitem = none ∧
      (render_open_submenu_step tb counter
        (clickInput p w) false).child_submenu_selections = []) := by
  refine ⟨?_, ?_, ?_⟩
  · intro tb counter inp hcnt
    have hng : ¬ (counter > tb.last_click_id) := by omega
    rcases ho : tb.open_submenu with _ | oi
    · simp [render_open_submenu_step, ho]
    rcases hm : tb.menu_items_with_submenus[oi]? with _ | mi
    · simp [render_open_submenu_step, ho, hm]
    rcases hne : mi.subitems.isEmpty with _ | _ <;>
      simp [render_open_submenu_step, ho, hm, hne, hng]
  · intro tb counter i mi p w hmi hne hno hbar
    have hbeq : (tb.open_submenu == some i) = false := by
      rw [beq_eq_false_iff_ne]
      exact hno
    simp [clickSubmenuTrigger, hbeq, render_open_submenu_step, clickInput, noKeys,
      hmi, hne, hbar]
  · intro tb counter i mi p w ho hmi hne hcnt hrect hbar
    simp [render_open_submenu_step, clickInput, noKeys, ho, hmi, hne, hcnt, hrect, hbar]

/-- C1 witness: counter equal to the stored token never closes (even for a
far-outside click); opening trigger 0 of the base fixture by a click at
(10, 10) on the menu bar survives its own frame's check; a later click at
(500, 400) with the counter advanced closes everything. -/
theorem c1_witness :
    (render_open_submenu_step residualTB 0 (clickInput (500, 400) 800)
      false).open_submenu = residualTB.open_submenu ∧
    (render_open_submenu_step (clickSubmenuTrigger baseTB 41 0).1
      (clickSubmenuTrigger baseTB 41 0).2 (clickInput (10, 10) 800) false).open_submenu
      = some 0 ∧
    ((render_open_submenu_step { baseTB with open_submenu := some 0, last_click_id := 41 }
        42 (clickInput (500, 400) 800) false).open_submenu = none ∧
      (render_open_submenu_step { baseTB with open_submenu := some 0, last_click_id := 41 }
        42 (clickInput (500, 400) 800) false).force_open_child_subitem = none ∧
      (render_open_submenu_step { baseTB with open_submenu := some 0, last_click_id := 41 }
        42 (clickInput (500, 400) 800) false).child_submenu_selections = []) :=
  ⟨c1_open_click_token.1 residualTB 0 (clickInput (500, 400) 800) rfl,
   c1_open_click_token.2.1 baseTB 41 0 fileMenu (10, 10) 800 rfl rfl (by decide)
     (by with_unfolding_all rfl),
   c1_open_click_token.2.2 { baseTB with open_submenu := some 0, last_click_id := 41 }
     42 0 fileMenu (500, 400) 800 rfl rfl rfl (by decide)
     (by with_unfolding_all rfl) (by with_unfolding_all rfl)⟩

end EguiDesktop
